import Mathlib

/-!
# Verification of the voice-agent call-session orchestrator

Shallow embedding of the parts of the `voxionAIBot` repository that the
specification's claims are about:

* the scalar mu-law decoder `muLawDecodeByte` and the buffer-level decoder
  (`src/utils/wav-writer.ts`);
* the playground WAV recording sink `PlaygroundWavWriter`
  (`src/utils/wav-writer-playground.ts`);
* the Twilio media-stream gateway `TwilioWebSocketGateway`
  (`src/twilio/twilio/twilio.gateway.ts`): per-call state, the bounded
  pending-audio buffer, session registration and tear-down, and the
  transcript-to-generation path;
* the playground session service `PlaygroundService`
  (`src/playground/playground.service.ts`): the single-flight turn guard
  (`isProcessing`), greeting suppression, the empty-reply fallback, and
  session tear-down.

Machine integers are modelled with `Nat`/`Int`, with explicit `% 2 ^ 32`
where the JavaScript runtime wraps or bounds values.  Asynchronous
callback-driven code is modelled as explicit step functions on session
state: one step per event (inbound media frame, transcription-connection
open, transcript arrival, turn completion), reflecting that JavaScript
runs each synchronous segment of a handler atomically and interleaves
handlers only at `await` points.
-/

namespace VoxionBot

/-! ## AudioCodec: mu-law decoding (`src/utils/wav-writer.ts`) -/

/-- Constant `MULAW_BIAS` from `src/utils/wav-writer.ts`. -/
def MULAW_BIAS : Nat := 0x84

/-- Function `muLawDecodeByte(byteVal)` from `src/utils/wav-writer.ts`, lines 15-30.
The JavaScript `~byteVal & 0xff` computes the bitwise complement of the low
8 bits, i.e. `255 - byteVal % 256`; the remaining arithmetic stays within
32-bit range for every byte, so plain `Nat`/`Int` arithmetic is exact.
The two sequential clamping `if` statements become nested conditionals. -/
def muLawDecodeByte (byteVal : Nat) : Int :=
  let v : Nat := 255 - byteVal % 256
  let sign : Int := if v &&& 0x80 ≠ 0 then -1 else 1
  let exponent : Nat := (v >>> 4) &&& 0x07
  let mantissa : Nat := v &&& 0x0f
  let sample0 : Int := Int.ofNat (((mantissa <<< 3) + MULAW_BIAS) <<< exponent)
  let sample : Int := (sample0 - (MULAW_BIAS : Int)) * sign
  if sample > 32767 then 32767
  else if sample < -32768 then -32768
  else sample

/-- The decode rule in the words of the specification (spec §4.1 / claim C2):
invert all bits of the byte, extract the sign (bit 7), exponent (bits 4-6)
and mantissa (bits 0-3), compute `((mantissa <<< 3) + 0x84) <<< exponent`,
subtract the bias `0x84`, negate if the sign bit is set, and clamp the
result to the signed 16-bit range `[-32768, 32767]`. -/
def muLawDecodeSpecRule (b : Nat) : Int :=
  let inverted : Nat := 255 - b
  let signBit : Bool := inverted / 128 % 2 = 1
  let exponent : Nat := inverted / 16 % 8
  let mantissa : Nat := inverted % 16
  let magnitude : Int := Int.ofNat (((mantissa <<< 3) + 0x84) <<< exponent) - 0x84
  let signed : Int := if signBit then -magnitude else magnitude
  max (-32768) (min 32767 signed)

/-! ## RecordingWriter: `PlaygroundWavWriter` (`src/utils/wav-writer-playground.ts`) -/

/-- Little-endian layout of a 32-bit value, as Node's `Buffer.writeUInt32LE`
stores it.  Node throws for values outside `[0, 2 ^ 32)`; theorems below
carry that bound as a hypothesis where it matters. -/
def u32le (v : Nat) : List Nat :=
  [v % 256, v / 256 % 256, v / 65536 % 256, v / 16777216 % 256]

/-- Little-endian layout of a 16-bit value (`Buffer.writeUInt16LE`). -/
def u16le (v : Nat) : List Nat :=
  [v % 256, v / 256 % 256]

/-- Overwrite the bytes of `src` into `l` starting at offset `off`, leaving
the rest of `l` unchanged — the effect of Node's `buffer.write*` calls at an
offset into an existing buffer. -/
def writeAt : List Nat → Nat → List Nat → List Nat
  | [], _, _ => []
  | x :: xs, Nat.succ o, src => x :: writeAt xs o src
  | _ :: xs, 0, s :: ss => s :: writeAt xs 0 ss
  | x :: xs, 0, [] => x :: xs

/-- Read a 32-bit little-endian value from byte list `l` at offset `off`
(`Buffer.readUInt32LE`). -/
def readU32LE (l : List Nat) (off : Nat) : Nat :=
  l.getD off 0 + 256 * l.getD (off + 1) 0 + 65536 * l.getD (off + 2) 0 +
    16777216 * l.getD (off + 3) 0

/-- The provisional 44-byte header written by
`PlaygroundWavWriter.writeHeader` (lines 30-46): `Buffer.alloc(44)` zeroed,
then field writes; both size fields are zero placeholders.
ASCII: `RIFF` = 82,73,70,70; `WAVE` = 87,65,86,69; `fmt ` = 102,109,116,32;
`data` = 100,97,116,97. -/
def pwInitHeader (sampleRate : Nat) : List Nat :=
  let h0 := List.replicate 44 0
  let h1 := writeAt h0 0 [82, 73, 70, 70]
  let h2 := writeAt h1 4 (u32le 0)
  let h3 := writeAt h2 8 [87, 65, 86, 69]
  let h4 := writeAt h3 12 [102, 109, 116, 32]
  let h5 := writeAt h4 16 (u32le 16)
  let h6 := writeAt h5 20 (u16le 1)
  let h7 := writeAt h6 22 (u16le 1)
  let h8 := writeAt h7 24 (u32le sampleRate)
  let h9 := writeAt h8 28 (u32le (sampleRate * 2))
  let h10 := writeAt h9 32 (u16le 2)
  let h11 := writeAt h10 34 (u16le 16)
  let h12 := writeAt h11 36 [100, 97, 116, 97]
  writeAt h12 40 (u32le 0)

/-- The final 44-byte header built by `PlaygroundWavWriter.end`
(lines 51-68): `fileSize = dataSize + 36` at offset 4 and the true
`dataSize` at offset 40. -/
def pwEndHeader (sampleRate dataSize : Nat) : List Nat :=
  let fileSize := dataSize + 36
  let h0 := List.replicate 44 0
  let h1 := writeAt h0 0 [82, 73, 70, 70]
  let h2 := writeAt h1 4 (u32le fileSize)
  let h3 := writeAt h2 8 [87, 65, 86, 69]
  let h4 := writeAt h3 12 [102, 109, 116, 32]
  let h5 := writeAt h4 16 (u32le 16)
  let h6 := writeAt h5 20 (u16le 1)
  let h7 := writeAt h6 22 (u16le 1)
  let h8 := writeAt h7 24 (u32le sampleRate)
  let h9 := writeAt h8 28 (u32le (sampleRate * 2))
  let h10 := writeAt h9 32 (u16le 2)
  let h11 := writeAt h10 34 (u16le 16)
  let h12 := writeAt h11 36 [100, 97, 116, 97]
  writeAt h12 40 (u32le dataSize)

/-- State of a `PlaygroundWavWriter`: the running PCM byte count and the
bytes written to the file descriptor so far.  Appending writes go to the
current end of file; `end` seeks back to position 0. -/
structure PlaygroundWavWriter where
  sampleRate : Nat
  dataSize : Nat
  file : List Nat
  deriving Repr, DecidableEq

/-- The constructor (lines 7-17): open the file and write the provisional
header; `dataSize` starts at 0. -/
def PlaygroundWavWriter.create (sampleRate : Nat) : PlaygroundWavWriter :=
  { sampleRate := sampleRate, dataSize := 0, file := pwInitHeader sampleRate }

/-- Method `writePCM16(buffer)` (lines 22-25): append the buffer verbatim and add
its length to `dataSize`. -/
def PlaygroundWavWriter.writePCM16 (w : PlaygroundWavWriter) (buffer : List Nat) :
    PlaygroundWavWriter :=
  { w with file := w.file ++ buffer, dataSize := w.dataSize + buffer.length }

/-- Method `end()` (lines 51-71): rewrite the 44-byte header at file position 0
with the true sizes (`fs.writeSync(fd, header, 0, 44, 0)`), then close. -/
def PlaygroundWavWriter.endFile (w : PlaygroundWavWriter) : PlaygroundWavWriter :=
  { w with file := writeAt w.file 0 (pwEndHeader w.sampleRate w.dataSize) }

/-! ## Greeting suppression (`src/playground/playground.service.ts`, lines 181-194)

The handler applies, in order, the JavaScript replacements
`replace(/welcome to axion hotel.*?(\.|!)/gi, '')`,
`replace(/hello[!.,]?\s*/i, '')`,
`replace(/good (morning|afternoon|evening).*?(\.|!)/gi, '')`,
then `trim()`, falling back to a fixed sentence when the result is empty.
The definitions below implement these regexes' semantics on `List Char`:
`/i` case-folds ASCII letters only (non-`u` regexes never let a non-ASCII
character match an ASCII pattern character), `.` matches anything except
the line terminators U+000A, U+000D, U+2028, U+2029, `.*?` is lazy, `\s`
is the ECMAScript whitespace-plus-line-terminator set, `/g` rescans from
the end of each match, and a non-global `replace` rewrites only the first
match. -/

/-- ECMAScript `\s` (also the set removed by `String.prototype.trim`). -/
def isJsWs (c : Char) : Bool :=
  c.toNat == 9 || c.toNat == 10 || c.toNat == 11 || c.toNat == 12 ||
  c.toNat == 13 || c.toNat == 32 || c.toNat == 0xa0 || c.toNat == 0x1680 ||
  (decide (0x2000 ≤ c.toNat) && decide (c.toNat ≤ 0x200a)) ||
  c.toNat == 0x2028 || c.toNat == 0x2029 || c.toNat == 0x202f ||
  c.toNat == 0x205f || c.toNat == 0x3000 || c.toNat == 0xfeff

/-- ECMAScript line terminators, which `.` does not match. -/
def isLineTerm (c : Char) : Bool :=
  c.toNat == 10 || c.toNat == 13 || c.toNat == 0x2028 || c.toNat == 0x2029

/-- JavaScript `String.prototype.trim`: strip leading and trailing whitespace. -/
def jsTrimList (l : List Char) : List Char :=
  ((l.dropWhile isJsWs).reverse.dropWhile isJsWs).reverse

/-- JavaScript `trim()` on strings. -/
def jsTrimStr (s : String) : String :=
  String.mk (jsTrimList s.data)

/-- Does `text` start with `keyword` under `/i` ASCII case folding?
(`keyword` is written in lowercase.) -/
def startsWithCI : List Char → List Char → Bool
  | [], _ => true
  | _ :: _, [] => false
  | k :: ks, c :: cs => k = c.toLower && startsWithCI ks cs

/-- Tail match `.*?(\.|!)` after a matched keyword: the number of characters consumed
up to and including the first `.` or `!`, failing at a line terminator or
at end of input (lazy match, `.` excludes line terminators). -/
def scanTerm : List Char → Option Nat
  | [] => none
  | c :: rest =>
    if c = '.' ∨ c = '!' then some 1
    else if isLineTerm c then none
    else (scanTerm rest).map (· + 1)

/-- Length of a match of `keyword.*?(\.|!)` (with `/i`) at the start of
`text`, if any.  A successful match always consumes at least one
character (the terminator). -/
def lazyGreetMatchLen (keyword text : List Char) : Option Nat :=
  if startsWithCI keyword text then
    (scanTerm (text.drop keyword.length)).map (keyword.length + ·)
  else none

/-- First alternative of `(k₁|k₂|…).*?(\.|!)` matching at the start of
`text`, tried left to right as the regex engine does. -/
def firstAltMatchLen (keywords : List (List Char)) (text : List Char) : Option Nat :=
  match keywords with
  | [] => none
  | k :: ks =>
    match lazyGreetMatchLen k text with
    | some n => some n
    | none => firstAltMatchLen ks text

/-- Replacement `replace(/(k₁|k₂|…).*?(\.|!)/gi, '')`, fuelled: scan left to right,
delete each match, and continue scanning right after it.  A match at
`c :: rest` consumes `n ≥ 1` characters (the terminator at least), so the
remainder is `rest.drop (n - 1)`; every step consumes at least one input
character, so fuel equal to the input length (supplied by
`replaceAllLazyGreet`) never runs out.  Structural recursion on the fuel
keeps the function kernel-reducible. -/
def replaceAllLazyGo (keywords : List (List Char)) : Nat → List Char → List Char
  | _, [] => []
  | 0, text => text
  | fuel + 1, c :: rest =>
    match firstAltMatchLen keywords (c :: rest) with
    | some n => replaceAllLazyGo keywords fuel (rest.drop (n - 1))
    | none => c :: replaceAllLazyGo keywords fuel rest

/-- Replacement `replace(/(k₁|k₂|…).*?(\.|!)/gi, '')` on a whole text. -/
def replaceAllLazyGreet (keywords : List (List Char)) (text : List Char) :
    List Char :=
  replaceAllLazyGo keywords text.length text

/-- Length of a match of `/hello[!.,]?\s*/i` at the start of `text`:
`hello` case-insensitively, one optional `!`, `.` or `,`, then greedily
all following whitespace. -/
def helloMatchLen (text : List Char) : Option Nat :=
  if startsWithCI ('h' :: 'e' :: 'l' :: 'l' :: 'o' :: []) text then
    let rest := text.drop 5
    let p : Nat :=
      match rest with
      | c :: _ => if c = '!' ∨ c = '.' ∨ c = ',' then 1 else 0
      | [] => 0
    some (5 + p + ((rest.drop p).takeWhile isJsWs).length)
  else none

/-- Replacement `replace(/hello[!.,]?\s*/i, '')`: delete only the first match. -/
def replaceFirstHello : List Char → List Char
  | [] => []
  | c :: rest =>
    match helloMatchLen (c :: rest) with
    | some n => rest.drop (n - 1)
    | none => c :: replaceFirstHello rest

/-- The three greeting-stripping replacements of
`handleDeepgramTranscript` (lines 186-188), in source order. -/
def stripGreetings (s : String) : String :=
  let l1 := replaceAllLazyGreet ["welcome to axion hotel".data] s.data
  let l2 := replaceFirstHello l1
  let l3 := replaceAllLazyGreet
    ["good morning".data, "good afternoon".data, "good evening".data] l2
  String.mk l3

/-- The fixed fallback sentence of line 193. -/
def fallbackReply : String := "Sure, could you please provide more details?"

/-- Lines 179-194 of `handleDeepgramTranscript`: keep the raw reply on the
first turn, strip greetings on later turns, trim, and substitute the
fallback sentence when the result is empty. -/
def applyGreetingPolicy (hasGreeted : Bool) (raw : String) : String :=
  let botReply := if hasGreeted then stripGreetings raw else raw
  let trimmed := jsTrimStr botReply
  if trimmed = "" then fallbackReply else trimmed

/-! ## Playground turn pipeline (`src/playground/playground.service.ts`) -/

/-- Outcome of `llm.generateResponse` as observed by the handler. -/
inductive GenResult where
  | ok (reply : String)
  | fail
  deriving Repr, DecidableEq

/-- Outcome of the synthesis stage `streamBotResponse` (lines 213-275):
either `streamTextToAudioFast` runs to completion — the chunk callback
fires per chunk and then with the final marker, which clears
`isProcessing` — or the streaming call throws, `isProcessing` is cleared,
and one full-buffer `textToAudio` fallback is attempted
(`fallbackAudio = none` models the fallback also throwing). -/
inductive TtsOutcome where
  | streamOk (chunks : List String)
  | streamFail (fallbackAudio : Option String)
  deriving Repr, DecidableEq

/-- Observable side effects of one `handleDeepgramTranscript` call: client
sends, provider invocations, and log lines relevant to the claims. -/
inductive PgAction where
  | logSkip
  | sendTranscript (t : String)
  | genCall (t : String)
  | sendBotText (t : String)
  | ttsStreamCall (t : String)
  | sendAudioChunk (a : String)
  | sendFinalMarker
  | ttsFallbackCall (t : String)
  | sendBotAudio (a : String)
  | logError
  deriving Repr, DecidableEq

/-- Structure `PlaygroundSession` (lines 13-23).  WebSocket and process handles are
modelled by presence flags; `dgSocket` always exists once the session is
registered. -/
structure PlaygroundSession where
  directStream : Bool
  hasFfmpeg : Bool
  hasSilence : Bool
  hasWav : Bool
  hasGreeted : Bool
  isProcessing : Bool
  audioChunks : List String
  deriving Repr, DecidableEq

/-- Handler `handleDeepgramTranscript` (lines 151-208) together with
`streamBotResponse` (lines 213-275), for a registered session: drop the
transcript while `isProcessing` (lines 156-160); otherwise set Busy,
forward the transcript, call generation, apply the greeting policy, send
the reply text, and synthesize it.  Every completion or failure path
clears `isProcessing`: the outer catch (lines 204-207), the streaming
final-marker callback (line 252), or the streaming catch (line 259).
The generation and synthesis outcomes are oracle parameters. -/
def handleDeepgramTranscript (s : PlaygroundSession) (transcript : String)
    (gen : GenResult) (tts : TtsOutcome) : PlaygroundSession × List PgAction :=
  if s.isProcessing then (s, [.logSkip])
  else
    match gen with
    | .fail =>
        ({ s with isProcessing := false },
          [.sendTranscript transcript, .genCall transcript, .logError])
    | .ok raw =>
        let reply := applyGreetingPolicy s.hasGreeted raw
        let s1 := { s with hasGreeted := true }
        match tts with
        | .streamOk chunks =>
            ({ s1 with isProcessing := false, audioChunks := chunks },
              [.sendTranscript transcript, .genCall transcript,
                .sendBotText reply, .ttsStreamCall reply]
                ++ chunks.map PgAction.sendAudioChunk ++ [.sendFinalMarker])
        | .streamFail (some audio) =>
            ({ s1 with isProcessing := false, audioChunks := [] },
              [.sendTranscript transcript, .genCall transcript,
                .sendBotText reply, .ttsStreamCall reply, .logError,
                .ttsFallbackCall reply, .sendBotAudio audio])
        | .streamFail none =>
            ({ s1 with isProcessing := false, audioChunks := [] },
              [.sendTranscript transcript, .genCall transcript,
                .sendBotText reply, .ttsStreamCall reply, .logError,
                .ttsFallbackCall reply, .logError])

/-- Turn-level abstraction of the playground single-flight guard.  A
`finalTranscript` event is the synchronous prefix of
`handleDeepgramTranscript` (lines 156-162): the busy test and the
`isProcessing = true` assignment run in one uninterrupted JavaScript
segment, and generation is invoked before the first `await` suspends the
handler.  A `turnEnd` event is whichever continuation clears
`isProcessing` (success marker or error path).  `genInflight` counts
generation calls started and not yet ended. -/
structure PgTurnState where
  isProcessing : Bool
  genInflight : Nat
  deriving Repr, DecidableEq

/-- Events of the turn-level machine. -/
inductive PgTurnEvent where
  | finalTranscript
  | turnEnd
  deriving Repr, DecidableEq

/-- One event of the turn-level machine. -/
def pgTurnStep (s : PgTurnState) : PgTurnEvent → PgTurnState
  | .finalTranscript =>
      if s.isProcessing then s
      else { isProcessing := true, genInflight := s.genInflight + 1 }
  | .turnEnd => { isProcessing := false, genInflight := s.genInflight - 1 }

/-- Run the turn-level machine over a sequence of events. -/
def pgTurnRun (s : PgTurnState) (evs : List PgTurnEvent) : PgTurnState :=
  evs.foldl pgTurnStep s

/-- A freshly registered session: Idle, no turn in flight. -/
def pgTurnInit : PgTurnState := { isProcessing := false, genInflight := 0 }

/-! ## Playground session registry (`startSession` / `endSession`) -/

/-- Resource releases performed by `PlaygroundService.endSession`
(lines 356-376). -/
inductive PgDestroyAction where
  | ffmpegStdinEnd
  | ffmpegKill
  | dgClose
  | clearSilence
  | wavEnd
  deriving Repr, DecidableEq

/-- The `sessions` map of `PlaygroundService`, keyed by client connection
(JavaScript `Map` modelled as a partial function). -/
structure PgRegistry where
  sessions : Nat → Option PlaygroundSession

/-- Method `endSession(client)` (lines 356-376): when a session exists, end and
kill ffmpeg if present, close the Deepgram socket, clear the silence
timer if present, finalize the WAV writer if present, and delete the
entry; when no session exists, do nothing. -/
def endSession (st : PgRegistry) (c : Nat) : PgRegistry × List PgDestroyAction :=
  match st.sessions c with
  | none => (st, [])
  | some sess =>
      let acts :=
        (if sess.hasFfmpeg then [PgDestroyAction.ffmpegStdinEnd,
          PgDestroyAction.ffmpegKill] else [])
        ++ [PgDestroyAction.dgClose]
        ++ (if sess.hasSilence then [PgDestroyAction.clearSilence] else [])
        ++ (if sess.hasWav then [PgDestroyAction.wavEnd] else [])
      ({ sessions := fun x => if x = c then none else st.sessions x }, acts)

/-! ## Twilio media-stream gateway (`src/twilio/twilio/twilio.gateway.ts`) -/

/-- An inbound or outbound audio frame (the decoded payload of one `media`
event), identified by an opaque token. -/
abbrev Frame := Nat

/-- Structure `ActiveCall` (lines 248-258), with `genInflight` as instrumentation
counting generation calls started in `onTranscript` and not yet
resolved. -/
structure ActiveCall where
  dgPresent : Bool
  dgOpen : Bool
  buf : List Frame
  maxBuf : Nat
  transcriptHistory : List (String × Bool)
  genInflight : Nat
  deriving Repr, DecidableEq

/-- The call registered by `onStart` (lines 330-340): Deepgram not yet
connected, empty buffer, `maxBuf = 400`. -/
def initialActiveCall : ActiveCall :=
  { dgPresent := false, dgOpen := false, buf := [], maxBuf := 400,
    transcriptHistory := [], genInflight := 0 }

/-- Gateway state: the `calls` and `wavWriters` maps keyed by `streamSid`
(JavaScript `Map`s as partial functions) plus a counter supplying fresh
WAV-writer identities for `new WavWriter(...)`. -/
structure TwGateway where
  calls : String → Option ActiveCall
  wavWriters : String → Option Nat
  nextWriter : Nat

/-- The gateway before any event. -/
def initialGateway : TwGateway :=
  { calls := fun _ => none, wavWriters := fun _ => none, nextWriter := 0 }

/-- Observable side effects of gateway event handlers. -/
inductive TwAction where
  | writeMulaw (wid : Nat) (f : Frame)
  | dgSend (sid : String) (f : Frame)
  | dgClose (sid : String)
  | wavEnd (wid : Nat)
  | genStart (sid : String) (text : String)
  deriving Repr, DecidableEq

/-- Gateway events.  `start`, `media` and `stop` are the Twilio control
messages; `dgConnected` is the resolution of `deepgram.createLive` inside
`onStart` (lines 343-349); `transcript` is a Deepgram callback delivery
into `onTranscript`; `genFinished` is the resolution of the
`generateResponse` promise awaited there.  Handlers interleave at
`await` points, so each event is one synchronous segment. -/
inductive TwEvent where
  | start (sid : String)
  | dgConnected (sid : String)
  | media (sid : String) (f : Frame)
  | transcript (sid : String) (text : String) (isFinal : Bool)
  | genFinished (sid : String)
  | stop (sid : String)
  deriving Repr, DecidableEq

/-- Lines 379-380 of `onMedia`: `call.buf.push(ulaw); if (call.buf.length
> call.maxBuf) call.buf.shift();`. -/
def bufAccept (buf : List Frame) (maxBuf : Nat) (f : Frame) : List Frame :=
  let b := buf ++ [f]
  if b.length > maxBuf then b.tail else b

/-- Update one key of a string-keyed map. -/
def updMap {α : Type} (m : String → Option α) (k : String) (v : Option α) :
    String → Option α :=
  fun x => if x = k then v else m x

/-- One gateway event.  Each clause is the corresponding handler:
`onStart` (lines 321-340) registers a fresh WAV writer and call state,
unconditionally overwriting any existing entries for the same sid;
`dgConnected` (lines 343-349) marks the call's Deepgram socket present and
open — the buffered frames are left untouched and nothing is sent;
`onMedia` (lines 362-385) writes the frame to the WAV writer, then either
sends it to Deepgram (socket present and open) or buffers it with
capacity `maxBuf`, dropping the oldest on overflow; `onTranscript`
(lines 411-480) ignores blank text, records the entry, and for a final
transcript starts a generation call — with no busy guard; `genFinished`
resolves one generation; `onStop` (lines 392-404) closes Deepgram if
present, removes the call, and finalizes and removes the WAV writer if
present. -/
def twStep (g : TwGateway) : TwEvent → TwGateway × List TwAction
  | .start sid =>
      ({ calls := updMap g.calls sid (some initialActiveCall),
         wavWriters := updMap g.wavWriters sid (some g.nextWriter),
         nextWriter := g.nextWriter + 1 }, [])
  | .dgConnected sid =>
      match g.calls sid with
      | none => (g, [])
      | some c =>
          ({ g with calls := (updMap g.calls sid
              (some { c with dgPresent := true, dgOpen := true })) }, [])
  | .media sid f =>
      match g.calls sid with
      | none => (g, [])
      | some c =>
          let wavActs :=
            match g.wavWriters sid with
            | some wid => [TwAction.writeMulaw wid f]
            | none => []
          if c.dgPresent && c.dgOpen then
            (g, wavActs ++ [TwAction.dgSend sid f])
          else
            ({ g with calls := (updMap g.calls sid
                (some { c with buf := bufAccept c.buf c.maxBuf f })) }, wavActs)
  | .transcript sid text isFinal =>
      match g.calls sid with
      | none => (g, [])
      | some c =>
          if jsTrimStr text = "" then (g, [])
          else
            let c1 := { c with
              transcriptHistory := c.transcriptHistory ++ [(text, isFinal)] }
            if isFinal then
              ({ g with calls := (updMap g.calls sid
                  (some { c1 with genInflight := c1.genInflight + 1 })) },
                [TwAction.genStart sid text])
            else
              ({ g with calls := updMap g.calls sid (some c1) }, [])
  | .genFinished sid =>
      match g.calls sid with
      | none => (g, [])
      | some c =>
          ({ g with calls := (updMap g.calls sid
              (some { c with genInflight := c.genInflight - 1 })) }, [])
  | .stop sid =>
      let a1 :=
        match g.calls sid with
        | some c => if c.dgPresent then [TwAction.dgClose sid] else []
        | none => []
      let calls2 := updMap g.calls sid none
      match g.wavWriters sid with
      | some wid =>
          ({ g with
              calls := calls2
              wavWriters := updMap g.wavWriters sid none },
            a1 ++ [TwAction.wavEnd wid])
      | none => ({ g with calls := calls2 }, a1)

/-- Run the gateway over a sequence of events, accumulating actions. -/
def twRun (g : TwGateway) : List TwEvent → TwGateway × List TwAction
  | [] => (g, [])
  | e :: es =>
      let (g1, a1) := twStep g e
      let (g2, a2) := twRun g1 es
      (g2, a1 ++ a2)

/-- The frames forwarded to the transcription provider for `sid`, in
order of sending. -/
def dgSentPayloads (acts : List TwAction) (sid : String) : List Frame :=
  acts.filterMap fun a =>
    match a with
    | .dgSend s f => if s = sid then some f else none
    | _ => none

end VoxionBot

namespace VoxionBot

set_option maxRecDepth 8192

/-- C2: for every input byte `b` (0..255) the scalar mu-law decode agrees
with the spec's rule (invert bits, split sign/exponent/mantissa,
`((mantissa <<< 3) + 0x84) <<< exponent - 0x84`, negate on sign, clamp) and
its output always lies in the signed 16-bit range.  Totality is inherent:
`muLawDecodeByte` is a total Lean function. -/
theorem muLawDecode_matches_spec_and_clamped :
    ∀ b : Nat, b < 256 →
      muLawDecodeByte b = muLawDecodeSpecRule b ∧
      -32768 ≤ muLawDecodeByte b ∧ muLawDecodeByte b ≤ 32767 := by
  decide

/-- Witness for C2 at the concrete byte `0xFF` (decodes to `0`). -/
theorem muLawDecode_matches_spec_and_clamped_witness :
    muLawDecodeByte 255 = muLawDecodeSpecRule 255 ∧
      -32768 ≤ muLawDecodeByte 255 ∧ muLawDecodeByte 255 ≤ 32767 :=
  muLawDecode_matches_spec_and_clamped 255 (by decide)

/-! ### Recording sink: header lemmas -/

/-- Reassembling a 32-bit value from its little-endian byte fields. -/
theorem u32le_readback (v : Nat) (h : v < 2 ^ 32) :
    v % 256 + 256 * (v / 256 % 256) + 65536 * (v / 65536 % 256) +
      16777216 * (v / 16777216 % 256) = v := by
  omega

/-- The data-size field (offset 40) of the header written by `end`. -/
theorem pwEndHeader_dataSize_field (sr n : Nat) (h : n + 36 < 2 ^ 32) :
    readU32LE (pwEndHeader sr n) 40 = n := by
  have := u32le_readback n (by omega)
  simpa only [pwEndHeader, u32le, u16le, List.replicate, writeAt, readU32LE,
    List.getD_cons_zero, List.getD_cons_succ] using this

/-- The file-size field (offset 4) of the header written by `end`. -/
theorem pwEndHeader_fileSize_field (sr n : Nat) (h : n + 36 < 2 ^ 32) :
    readU32LE (pwEndHeader sr n) 4 = n + 36 := by
  have := u32le_readback (n + 36) h
  simpa only [pwEndHeader, u32le, u16le, List.replicate, writeAt, readU32LE,
    List.getD_cons_zero, List.getD_cons_succ] using this

/-- The header written by `end` is exactly 44 bytes. -/
theorem pwEndHeader_length (sr n : Nat) : (pwEndHeader sr n).length = 44 := by
  simp [pwEndHeader, u32le, u16le, List.replicate, writeAt]

/-- Overwriting at offset 0 makes the overwritten positions read back from
the source bytes. -/
theorem getD_writeAt_zero (src : List Nat) :
    ∀ (l : List Nat) (i : Nat), i < src.length → i < l.length →
      (writeAt l 0 src).getD i 0 = src.getD i 0 := by
  induction src with
  | nil => intro l i hi _; simp at hi
  | cons s ss ih =>
    intro l i hi hl
    cases l with
    | nil => simp at hl
    | cons x xs =>
      cases i with
      | zero => simp [writeAt]
      | succ j =>
        simp only [writeAt, List.getD_cons_succ]
        exact ih xs j (by simpa using hi) (by simpa using hl)

/-- Overwriting at offset 0 replaces exactly the first `src.length` bytes. -/
theorem writeAt_zero_take (src : List Nat) :
    ∀ l : List Nat, src.length ≤ l.length →
      (writeAt l 0 src).take src.length = src := by
  induction src with
  | nil => intro l _; simp
  | cons s ss ih =>
    intro l hl
    cases l with
    | nil => simp at hl
    | cons x xs =>
      simp only [writeAt, List.length_cons, List.take_succ_cons]
      exact congrArg (s :: ·) (ih xs (by simpa using hl))

/-- The running `dataSize` after a sequence of `writePCM16` calls is the
total byte count written. -/
theorem pwav_foldl_dataSize (writes : List (List Nat)) :
    ∀ w : PlaygroundWavWriter,
      (writes.foldl PlaygroundWavWriter.writePCM16 w).dataSize
        = w.dataSize + (writes.map List.length).sum := by
  induction writes with
  | nil => intro w; simp
  | cons b bs ih =>
    intro w
    simp only [List.foldl_cons, List.map_cons, List.sum_cons, ih,
      PlaygroundWavWriter.writePCM16]
    omega

/-- Method `writePCM16` only ever appends, so the file never shrinks below the
44 provisional header bytes. -/
theorem pwav_foldl_file_length (writes : List (List Nat)) :
    ∀ w : PlaygroundWavWriter,
      w.file.length ≤ (writes.foldl PlaygroundWavWriter.writePCM16 w).file.length := by
  induction writes with
  | nil => intro w; simp
  | cons b bs ih =>
    intro w
    calc w.file.length ≤ (w.writePCM16 b).file.length := by
          simp [PlaygroundWavWriter.writePCM16]
      _ ≤ _ := ih (w.writePCM16 b)

/-- The provisional header is 44 bytes long. -/
theorem pwInitHeader_length (sr : Nat) : (pwInitHeader sr).length = 44 := by
  simp [pwInitHeader, u32le, u16le, List.replicate, writeAt]

/-- Method `writePCM16` never changes the configured sample rate. -/
theorem pwav_foldl_sampleRate (writes : List (List Nat)) :
    ∀ w : PlaygroundWavWriter,
      (writes.foldl PlaygroundWavWriter.writePCM16 w).sampleRate = w.sampleRate := by
  induction writes with
  | nil => intro w; simp
  | cons b bs ih =>
    intro w
    simp only [List.foldl_cons, ih, PlaygroundWavWriter.writePCM16]

/-- C9: for every sequence of `writePCM16` calls totalling `n` PCM bytes
(`n = 0` included), `end` rewrites the first 44 bytes of the file with a
header whose data-size field (offset 40) is exactly `n` and whose
file-size field (offset 4) is `n + 36`.  The bound `n + 36 < 2 ^ 32` is the
in-range precondition of Node's `writeUInt32LE`. -/
theorem pwav_close_header_sizes (writes : List (List Nat)) (sr : Nat)
    (h : (writes.map List.length).sum + 36 < 2 ^ 32) :
    ((writes.foldl PlaygroundWavWriter.writePCM16
        (PlaygroundWavWriter.create sr)).endFile.file.take 44
      = pwEndHeader sr ((writes.map List.length).sum)) ∧
    readU32LE ((writes.foldl PlaygroundWavWriter.writePCM16
        (PlaygroundWavWriter.create sr)).endFile.file) 40
      = (writes.map List.length).sum ∧
    readU32LE ((writes.foldl PlaygroundWavWriter.writePCM16
        (PlaygroundWavWriter.create sr)).endFile.file) 4
      = (writes.map List.length).sum + 36 := by
  have hds : (writes.foldl PlaygroundWavWriter.writePCM16
      (PlaygroundWavWriter.create sr)).dataSize = (writes.map List.length).sum := by
    rw [pwav_foldl_dataSize]
    simp [PlaygroundWavWriter.create]
  have hsr : (writes.foldl PlaygroundWavWriter.writePCM16
      (PlaygroundWavWriter.create sr)).sampleRate = sr := by
    rw [pwav_foldl_sampleRate]
    rfl
  have hlen : 44 ≤ (writes.foldl PlaygroundWavWriter.writePCM16
      (PlaygroundWavWriter.create sr)).file.length := by
    have h1 := pwav_foldl_file_length writes (PlaygroundWavWriter.create sr)
    simpa [PlaygroundWavWriter.create, pwInitHeader_length] using h1
  generalize hww : writes.foldl PlaygroundWavWriter.writePCM16
      (PlaygroundWavWriter.create sr) = w at hds hsr hlen ⊢
  simp only [PlaygroundWavWriter.endFile]
  rw [hsr, hds]
  have hhdlen : (pwEndHeader sr ((writes.map List.length).sum)).length = 44 :=
    pwEndHeader_length _ _
  have hg : ∀ i : Nat, i < 44 →
      ((writeAt w.file 0 (pwEndHeader sr ((writes.map List.length).sum))).getD i 0
        = (pwEndHeader sr ((writes.map List.length).sum)).getD i 0) := fun i hi =>
    getD_writeAt_zero _ _ _ (by omega) (by omega)
  refine ⟨?_, ?_, ?_⟩
  · have := writeAt_zero_take (pwEndHeader sr ((writes.map List.length).sum))
      w.file (by omega)
    rw [hhdlen] at this
    exact this
  · have hfield := pwEndHeader_dataSize_field sr ((writes.map List.length).sum)
      (by omega)
    simp only [readU32LE, Nat.reduceAdd, hg 40 (by omega), hg 41 (by omega),
      hg 42 (by omega), hg 43 (by omega)]
    simpa only [readU32LE, Nat.reduceAdd] using hfield
  · have hfield := pwEndHeader_fileSize_field sr ((writes.map List.length).sum)
      (by omega)
    simp only [readU32LE, Nat.reduceAdd, hg 4 (by omega), hg 5 (by omega),
      hg 6 (by omega), hg 7 (by omega)]
    simpa only [readU32LE, Nat.reduceAdd] using hfield

/-! ### Single-flight turn discipline -/

/-- C1 (amended): in the playground service a final transcript arriving
while `isProcessing` is dropped with only a log note — the session state
is unchanged and no generation call starts — and over every event
sequence of the turn-level machine the number of in-flight generation
calls equals the Busy bit, hence never exceeds one.  (The Twilio
gateway's transcript path has no such guard; see the counterexample.) -/
theorem playground_single_flight :
    (∀ (s : PlaygroundSession) (t : String) (gen : GenResult) (tts : TtsOutcome),
        s.isProcessing = true →
        handleDeepgramTranscript s t gen tts = (s, [PgAction.logSkip])) ∧
    (∀ evs : List PgTurnEvent,
        (pgTurnRun pgTurnInit evs).genInflight
          = (if (pgTurnRun pgTurnInit evs).isProcessing then 1 else 0) ∧
        (pgTurnRun pgTurnInit evs).genInflight ≤ 1) := by
  constructor
  · intro s t gen tts h
    simp [handleDeepgramTranscript, h]
  · have key : ∀ (evs : List PgTurnEvent) (s : PgTurnState),
        s.genInflight = (if s.isProcessing then 1 else 0) →
        (pgTurnRun s evs).genInflight
          = (if (pgTurnRun s evs).isProcessing then 1 else 0) := by
      intro evs
      induction evs with
      | nil => intro s h; simpa [pgTurnRun] using h
      | cons e es ih =>
          intro s h
          have hstep : (pgTurnStep s e).genInflight
              = (if (pgTurnStep s e).isProcessing then 1 else 0) := by
            cases e <;> simp only [pgTurnStep] <;>
              split_ifs at h ⊢ <;> simp_all
          simpa only [pgTurnRun, List.foldl_cons] using ih (pgTurnStep s e) hstep
    intro evs
    have h1 := key evs pgTurnInit (by simp [pgTurnInit])
    refine ⟨h1, ?_⟩
    rw [h1]
    split_ifs <;> omega

/-- Witness for C1: a busy session drops the transcript unchanged, and a
concrete two-final trace keeps at most one generation in flight. -/
theorem playground_single_flight_witness :
    handleDeepgramTranscript
        { directStream := true
          hasFfmpeg := false
          hasSilence := true
          hasWav := true
          hasGreeted := true
          isProcessing := true
          audioChunks := [] } "hi" GenResult.fail (TtsOutcome.streamOk [])
      = ({ directStream := true
           hasFfmpeg := false
           hasSilence := true
           hasWav := true
           hasGreeted := true
           isProcessing := true
           audioChunks := [] }, [PgAction.logSkip]) ∧
    (pgTurnRun pgTurnInit
        [PgTurnEvent.finalTranscript, PgTurnEvent.finalTranscript]).genInflight ≤ 1 :=
  ⟨playground_single_flight.1 _ "hi" GenResult.fail (TtsOutcome.streamOk []) rfl,
    (playground_single_flight.2
      [PgTurnEvent.finalTranscript, PgTurnEvent.finalTranscript]).2⟩

/-- Counterexample to C1 as stated: in the Twilio gateway, two final
transcripts delivered while the first turn's generation is still pending
(its `onTranscript` handler suspended at `await generateResponse`) leave
two generation calls in flight for the same stream — there is no Busy
guard on this path, so the claimed per-session single-flight invariant
fails. -/
theorem twilio_concurrent_generation_overlap :
    ((twRun initialGateway [TwEvent.start "s", TwEvent.dgConnected "s",
        TwEvent.transcript "s" "hi" true, TwEvent.transcript "s" "yo" true]).1.calls
        "s").map ActiveCall.genInflight = some 2 := by
  decide

/-! ### Bounded pending-audio buffer -/

/-- Function `bufAccept` keeps the buffer within the bound. -/
theorem bufAccept_length_le (buf : List Frame) (f : Frame) (h : buf.length ≤ 400) :
    (bufAccept buf 400 f).length ≤ 400 := by
  simp only [bufAccept]
  split
  · simp only [List.length_tail, List.length_append, List.length_cons,
      List.length_nil]
    omega
  · next h2 =>
      simp only [gt_iff_lt, not_lt, List.length_append, List.length_cons,
        List.length_nil] at h2
      simpa using h2

/-- One gateway event preserves the per-call buffer bound. -/
theorem twStep_preserves_buf_bound (g : TwGateway) (e : TwEvent)
    (h : ∀ sid c, g.calls sid = some c → c.buf.length ≤ 400 ∧ c.maxBuf = 400) :
    ∀ sid c, (twStep g e).1.calls sid = some c →
      c.buf.length ≤ 400 ∧ c.maxBuf = 400 := by
  intro sid c hc
  cases e <;>
    simp only [twStep, updMap] at hc <;>
    repeat' split at hc
  all_goals try simp only [updMap] at hc
  all_goals repeat' split at hc
  all_goals try (cases hc)
  all_goals try exact h _ _ hc
  all_goals try dsimp only
  all_goals try exact ⟨by simp [initialActiveCall], rfl⟩
  all_goals
    (have hp := h _ _ (by assumption)
     refine ⟨?_, hp.2⟩
     first
       | exact hp.1
       | simpa [hp.2] using bufAccept_length_le _ _ hp.1)

/-- Every reachable gateway state keeps every call's buffer bounded. -/
theorem twRun_preserves_buf_bound (evs : List TwEvent) :
    ∀ g : TwGateway,
      (∀ sid c, g.calls sid = some c → c.buf.length ≤ 400 ∧ c.maxBuf = 400) →
      ∀ sid c, (twRun g evs).1.calls sid = some c →
        c.buf.length ≤ 400 ∧ c.maxBuf = 400 := by
  induction evs with
  | nil => intro g hg; simpa [twRun] using hg
  | cons e es ih =>
      intro g hg sid c hc
      rcases hstep : twStep g e with ⟨g1, a1⟩
      simp only [twRun, hstep] at hc
      have hg1 : ∀ sid c, g1.calls sid = some c →
          c.buf.length ≤ 400 ∧ c.maxBuf = 400 := by
        have := twStep_preserves_buf_bound g e hg
        rwa [hstep] at this
      exact ih g1 hg1 sid c hc

/-- C3: starting from the empty gateway, after any event sequence every
session's pending-audio buffer holds at most `maxBuf = 400` frames; and
when the buffer is full, accepting a new frame discards exactly the
oldest buffered frame (the head) and appends the new one. -/
theorem pending_buffer_bounded :
    (∀ (evs : List TwEvent) (sid : String) (c : ActiveCall),
        (twRun initialGateway evs).1.calls sid = some c → c.buf.length ≤ 400) ∧
    (∀ (buf : List Frame) (f : Frame), buf.length = 400 →
        bufAccept buf 400 f = buf.tail ++ [f]) := by
  constructor
  · intro evs sid c hc
    exact (twRun_preserves_buf_bound evs initialGateway
      (by simp [initialGateway]) sid c hc).1
  · intro buf f h
    simp only [bufAccept]
    rw [if_pos (by simp [h])]
    cases buf with
    | nil => simp at h
    | cons x xs => simp

/-- Witness for C3: a one-event trace keeps the buffer bounded, and a full
400-frame buffer drops its head on the next frame. -/
theorem pending_buffer_bounded_witness :
    initialActiveCall.buf.length ≤ 400 ∧
    bufAccept (List.replicate 400 (0 : Frame)) 400 7
      = (List.replicate 400 (0 : Frame)).tail ++ [7] :=
  ⟨pending_buffer_bounded.1 [TwEvent.start "s"] "s" initialActiveCall (by decide),
    pending_buffer_bounded.2 (List.replicate 400 (0 : Frame)) 7 (by simp)⟩

/-! ### Flushing behaviour at the Connecting-to-Open transition -/

/-- Sent-frame extraction distributes over action concatenation. -/
theorem dgSentPayloads_append (xs ys : List TwAction) (sid : String) :
    dgSentPayloads (xs ++ ys) sid
      = dgSentPayloads xs sid ++ dgSentPayloads ys sid := by
  simp [dgSentPayloads, List.filterMap_append]

/-- A media frame arriving while the call's Deepgram socket is present and
open is forwarded directly and changes no gateway state. -/
theorem open_media_step (g : TwGateway) (sid : String) (c : ActiveCall)
    (hcall : g.calls sid = some c) (hp : c.dgPresent = true)
    (ho : c.dgOpen = true) (f : Frame) :
    twStep g (.media sid f)
      = (g, (match g.wavWriters sid with
          | some wid => [TwAction.writeMulaw wid f]
          | none => []) ++ [TwAction.dgSend sid f]) := by
  simp [twStep, hcall, hp, ho]

/-- C4 (amended): the `dgConnected` transition sends nothing and leaves
every call's pending buffer untouched — buffered frames are never
flushed; frames arriving after the transition are forwarded directly, in
arrival order, leaving the state unchanged. -/
theorem connected_no_flush_and_open_order :
    (∀ (g : TwGateway) (sid : String),
        (twStep g (.dgConnected sid)).2 = [] ∧
        (∀ x, ((twStep g (.dgConnected sid)).1.calls x).map ActiveCall.buf
          = (g.calls x).map ActiveCall.buf)) ∧
    (∀ (g : TwGateway) (sid : String) (c : ActiveCall),
        g.calls sid = some c → c.dgPresent = true → c.dgOpen = true →
        ∀ fs : List Frame,
          (twRun g (fs.map (TwEvent.media sid))).1 = g ∧
          dgSentPayloads (twRun g (fs.map (TwEvent.media sid))).2 sid = fs) := by
  constructor
  · intro g sid
    cases hg : g.calls sid with
    | none => simp [twStep, hg]
    | some c0 =>
        refine ⟨by simp [twStep, hg], ?_⟩
        intro x
        simp only [twStep, hg, updMap]
        by_cases hx : x = sid
        · subst hx; simp [hg]
        · simp [hx]
  · intro g sid c hcall hp ho fs
    induction fs with
    | nil => simp [twRun, dgSentPayloads]
    | cons f rest ih =>
        have hstep := open_media_step g sid c hcall hp ho f
        simp only [List.map_cons, twRun, hstep]
        refine ⟨ih.1, ?_⟩
        rw [dgSentPayloads_append]
        have hone : dgSentPayloads
            ((match g.wavWriters sid with
              | some wid => [TwAction.writeMulaw wid f]
              | none => []) ++ [TwAction.dgSend sid f]) sid = [f] := by
          cases hw : g.wavWriters sid <;> simp [dgSentPayloads, hw]
        rw [hone]
        simpa using ih.2

/-- Witness for C4's amended theorem: a connected call forwards two frames
in order with no state change. -/
theorem connected_no_flush_and_open_order_witness :
    ((twRun (twRun initialGateway
        [TwEvent.start "s", TwEvent.dgConnected "s"]).1
        ([5, 6].map (TwEvent.media "s"))).1
      = (twRun initialGateway [TwEvent.start "s", TwEvent.dgConnected "s"]).1) ∧
    dgSentPayloads (twRun (twRun initialGateway
        [TwEvent.start "s", TwEvent.dgConnected "s"]).1
        ([5, 6].map (TwEvent.media "s"))).2 "s" = [5, 6] :=
  connected_no_flush_and_open_order.2
    (twRun initialGateway [TwEvent.start "s", TwEvent.dgConnected "s"]).1 "s"
    { dgPresent := true
      dgOpen := true
      buf := []
      maxBuf := 400
      transcriptHistory := []
      genInflight := 0 }
    (by decide) rfl rfl [5, 6]

/-- Counterexample to C4 as stated: frame 0 arrives while the connection
is Connecting and is buffered; after the transition to Open frame 1
arrives and is forwarded; the buffered frame 0 is never sent to the
provider — the gateway has no flush step, so the claimed
flush-in-order-before-new-frames behaviour does not occur. -/
theorem buffered_frame_never_flushed :
    dgSentPayloads (twRun initialGateway
      [TwEvent.start "s", TwEvent.media "s" 0, TwEvent.dgConnected "s",
        TwEvent.media "s" 1]).2 "s" = [1] ∧
    ((twRun initialGateway
      [TwEvent.start "s", TwEvent.media "s" 0, TwEvent.dgConnected "s",
        TwEvent.media "s" 1]).1.calls "s").map ActiveCall.buf = some [0] := by
  decide

/-! ### Greeting suppression and empty-reply fallback -/

/-- A whitespace-trimmed nonempty reply passes the greeting policy of an
un-greeted session verbatim. -/
theorem applyGreetingPolicy_first_turn (raw : String)
    (htrim : jsTrimStr raw = raw) (hne : raw ≠ "") :
    applyGreetingPolicy false raw = raw := by
  simp [applyGreetingPolicy, htrim, hne]

/-- The concrete greeting reply used below is stripped to its tail on a
greeted session: the `welcome to axion hotel.` match and the
`hello[!.,]?\s*` match are removed and the result trimmed. -/
theorem applyGreetingPolicy_strips_concrete :
    applyGreetingPolicy true "Hello! Welcome to Axion Hotel. How can I help?"
      = "How can I help?" := by
  decide

/-- C5 (amended): on the first turn of a session, a reply that is already
whitespace-trimmed and nonempty is emitted verbatim and the greeted flag
is set; on a later turn the reply has the code's three greeting patterns
removed — witnessed here on a reply carrying both a `hello` and a
`welcome to axion hotel` phrase terminated by punctuation, which is
emitted with both phrases stripped.  (Greeting phrases lacking a
`.`/`!` terminator are not stripped; see the counterexample.) -/
theorem greeting_first_turn_verbatim_then_strip :
    (∀ (s : PlaygroundSession) (t raw : String) (tts : TtsOutcome),
        s.isProcessing = false → s.hasGreeted = false →
        jsTrimStr raw = raw → raw ≠ "" →
        PgAction.sendBotText raw
          ∈ (handleDeepgramTranscript s t (.ok raw) tts).2 ∧
        (handleDeepgramTranscript s t (.ok raw) tts).1.hasGreeted = true) ∧
    (∀ (s : PlaygroundSession) (t : String) (tts : TtsOutcome),
        s.isProcessing = false → s.hasGreeted = true →
        PgAction.sendBotText "How can I help?"
          ∈ (handleDeepgramTranscript s t
              (.ok "Hello! Welcome to Axion Hotel. How can I help?") tts).2) := by
  constructor
  · intro s t raw tts hbusy hgreet htrim hne
    have hpol : applyGreetingPolicy s.hasGreeted raw = raw := by
      rw [hgreet]; exact applyGreetingPolicy_first_turn raw htrim hne
    cases tts with
    | streamOk chunks => simp [handleDeepgramTranscript, hbusy, hpol]
    | streamFail fb =>
        cases fb <;> simp [handleDeepgramTranscript, hbusy, hpol]
  · intro s t tts hbusy hgreet
    have hpol : applyGreetingPolicy s.hasGreeted
        "Hello! Welcome to Axion Hotel. How can I help?" = "How can I help?" := by
      rw [hgreet]; exact applyGreetingPolicy_strips_concrete
    cases tts with
    | streamOk chunks => simp [handleDeepgramTranscript, hbusy, hpol]
    | streamFail fb =>
        cases fb <;> simp [handleDeepgramTranscript, hbusy, hpol]

/-- Witness for C5's amended theorem at concrete sessions and replies. -/
theorem greeting_first_turn_verbatim_then_strip_witness :
    (PgAction.sendBotText "Hi there."
      ∈ (handleDeepgramTranscript
          { directStream := true
            hasFfmpeg := false
            hasSilence := true
            hasWav := true
            hasGreeted := false
            isProcessing := false
            audioChunks := [] } "t" (.ok "Hi there.") (.streamOk [])).2) ∧
    (PgAction.sendBotText "How can I help?"
      ∈ (handleDeepgramTranscript
          { directStream := true
            hasFfmpeg := false
            hasSilence := true
            hasWav := true
            hasGreeted := true
            isProcessing := false
            audioChunks := [] } "t"
          (.ok "Hello! Welcome to Axion Hotel. How can I help?")
          (.streamOk [])).2) :=
  ⟨(greeting_first_turn_verbatim_then_strip.1 _ "t" "Hi there." (.streamOk [])
      rfl rfl (by decide) (by decide)).1,
    greeting_first_turn_verbatim_then_strip.2 _ "t" (.streamOk []) rfl rfl⟩

/-- Counterexample to C5 as stated: on the second turn, the reply
`"Welcome to Axion Hotel"` — the greeting phrase itself, but with no
terminating `.` or `!` — is emitted unchanged: the stripping regex
requires a terminator, so not every greeting phrase is stripped on later
turns. -/
theorem greeting_survives_second_turn :
    PgAction.sendBotText "Welcome to Axion Hotel"
      ∈ (handleDeepgramTranscript
          { directStream := true
            hasFfmpeg := false
            hasSilence := true
            hasWav := true
            hasGreeted := true
            isProcessing := false
            audioChunks := [] } "book a room"
          (.ok "Welcome to Axion Hotel") (.streamOk [])).2 := by
  decide

/-- C10: the emitted reply text is never empty — when trimming (after
stripping, on greeted sessions) leaves nothing, the fixed fallback
sentence is emitted — and whatever the greeting policy produces is both
sent as the bot text and passed to streaming synthesis. -/
theorem reply_never_empty_with_fallback :
    (∀ (hasGreeted : Bool) (raw : String),
        applyGreetingPolicy hasGreeted raw ≠ "") ∧
    (∀ raw : String, jsTrimStr (stripGreetings raw) = "" →
        applyGreetingPolicy true raw = fallbackReply) ∧
    (∀ (s : PlaygroundSession) (t raw : String) (tts : TtsOutcome),
        s.isProcessing = false →
        PgAction.sendBotText (applyGreetingPolicy s.hasGreeted raw)
          ∈ (handleDeepgramTranscript s t (.ok raw) tts).2 ∧
        PgAction.ttsStreamCall (applyGreetingPolicy s.hasGreeted raw)
          ∈ (handleDeepgramTranscript s t (.ok raw) tts).2) := by
  refine ⟨?_, ?_, ?_⟩
  · intro hasGreeted raw
    simp only [applyGreetingPolicy]
    split <;> split <;> first | decide | assumption
  · intro raw h
    simp [applyGreetingPolicy, h]
  · intro s t raw tts hbusy
    cases tts with
    | streamOk chunks => simp [handleDeepgramTranscript, hbusy]
    | streamFail fb => cases fb <;> simp [handleDeepgramTranscript, hbusy]

/-- Witness for C10: the reply `"Hello"` strips to nothing on a greeted
session, so the fallback is emitted and synthesized. -/
theorem reply_never_empty_with_fallback_witness :
    applyGreetingPolicy true "Hello" ≠ "" ∧
    applyGreetingPolicy true "Hello" = fallbackReply ∧
    PgAction.sendBotText (applyGreetingPolicy true "Hello")
      ∈ (handleDeepgramTranscript
          { directStream := true
            hasFfmpeg := false
            hasSilence := true
            hasWav := true
            hasGreeted := true
            isProcessing := false
            audioChunks := [] } "t" (.ok "Hello") (.streamOk [])).2 :=
  ⟨reply_never_empty_with_fallback.1 true "Hello",
    reply_never_empty_with_fallback.2.1 "Hello" (by decide),
    (reply_never_empty_with_fallback.2.2
      { directStream := true
        hasFfmpeg := false
        hasSilence := true
        hasWav := true
        hasGreeted := true
        isProcessing := false
        audioChunks := [] } "t" "Hello" (.streamOk []) rfl).1⟩

/-! ### Per-turn error containment -/

/-- C8: starting a turn from an idle session, every outcome — generation
failure, streaming-synthesis failure with or without a successful
full-buffer fallback, or full success — leaves `isProcessing` cleared, so
the next final transcript can start a new turn; a generation failure is
logged and aborts the turn before any reply text or audio is produced;
a synthesis failure is logged. -/
theorem turn_failure_clears_busy :
    ∀ (s : PlaygroundSession) (t : String) (gen : GenResult) (tts : TtsOutcome),
      s.isProcessing = false →
      (handleDeepgramTranscript s t gen tts).1.isProcessing = false ∧
      (gen = .fail →
        (handleDeepgramTranscript s t gen tts).1 = { s with isProcessing := false } ∧
        PgAction.logError ∈ (handleDeepgramTranscript s t gen tts).2 ∧
        (∀ r, PgAction.sendBotText r ∉ (handleDeepgramTranscript s t gen tts).2) ∧
        (∀ a, PgAction.sendBotAudio a ∉ (handleDeepgramTranscript s t gen tts).2)) ∧
      (∀ fb, tts = .streamFail fb →
        PgAction.logError ∈ (handleDeepgramTranscript s t gen tts).2) := by
  intro s t gen tts hbusy
  refine ⟨?_, ?_, ?_⟩
  · cases gen with
    | fail => simp [handleDeepgramTranscript, hbusy]
    | ok raw =>
        cases tts with
        | streamOk chunks => simp [handleDeepgramTranscript, hbusy]
        | streamFail fb => cases fb <;> simp [handleDeepgramTranscript, hbusy]
  · intro hfail
    subst hfail
    refine ⟨?_, ?_, ?_, ?_⟩
    · simp [handleDeepgramTranscript, hbusy]
    · simp [handleDeepgramTranscript, hbusy]
    · intro r; simp [handleDeepgramTranscript, hbusy]
    · intro a; simp [handleDeepgramTranscript, hbusy]
  · intro fb hfb
    subst hfb
    cases gen with
    | fail => simp [handleDeepgramTranscript, hbusy]
    | ok raw => cases fb <;> simp [handleDeepgramTranscript, hbusy]

/-- Witness for C8 at a concrete idle session with a failing generation. -/
theorem turn_failure_clears_busy_witness :
    (handleDeepgramTranscript
        { directStream := true
          hasFfmpeg := false
          hasSilence := true
          hasWav := true
          hasGreeted := false
          isProcessing := false
          audioChunks := [] } "t" GenResult.fail (.streamFail none)).1.isProcessing
      = false :=
  (turn_failure_clears_busy
    { directStream := true
      hasFfmpeg := false
      hasSilence := true
      hasWav := true
      hasGreeted := false
      isProcessing := false
      audioChunks := [] } "t" GenResult.fail (.streamFail none) rfl).1

/-! ### Session destruction and creation -/

/-- After a stop event both the call entry and the writer entry for the
stream are gone. -/
theorem twStep_stop_clears (g : TwGateway) (sid : String) :
    (twStep g (.stop sid)).1.calls sid = none ∧
    (twStep g (.stop sid)).1.wavWriters sid = none := by
  cases hw : g.wavWriters sid <;> simp [twStep, hw, updMap]

/-- A stop for a stream with no call and no writer does nothing. -/
theorem twStop_unknown (g : TwGateway) (sid : String)
    (hc : g.calls sid = none) (hw : g.wavWriters sid = none) :
    twStep g (.stop sid) = (g, []) := by
  have hcalls : updMap g.calls sid none = g.calls := by
    funext x
    by_cases hx : x = sid
    · subst hx; simp [updMap, hc]
    · simp [updMap, hx]
  simp [twStep, hw, hc, hcalls]

/-- Method `endSession` on an unknown client does nothing. -/
theorem endSession_unknown (st : PgRegistry) (c : Nat)
    (h : st.sessions c = none) : endSession st c = (st, []) := by
  simp [endSession, h]

/-- Method `endSession` removes the session entry. -/
theorem endSession_clears (st : PgRegistry) (c : Nat) :
    (endSession st c).1.sessions c = none := by
  cases hs : st.sessions c <;> simp [endSession, hs]

/-- C6: destruction is idempotent and complete, in both services.  For
the playground `endSession`: a second call is a no-op returning no
release actions; a call for an unknown client does nothing; a single call
on a live session removes the entry and releases each held resource
exactly once (Deepgram close always; ffmpeg kill, silence-timer clear and
WAV finalize exactly when present).  For the Twilio `onStop`: a second
stop is a no-op; a stop for an unknown stream does nothing; a single stop
removes both the call and writer entries, closes Deepgram when its socket
is present, and finalizes the WAV writer. -/
theorem destroy_idempotent_and_complete :
    (∀ (st : PgRegistry) (c : Nat),
        endSession (endSession st c).1 c = ((endSession st c).1, [])) ∧
    (∀ (st : PgRegistry) (c : Nat), st.sessions c = none →
        endSession st c = (st, [])) ∧
    (∀ (st : PgRegistry) (c : Nat) (sess : PlaygroundSession),
        st.sessions c = some sess →
        (endSession st c).1.sessions c = none ∧
        (endSession st c).2.count PgDestroyAction.dgClose = 1 ∧
        (endSession st c).2.count PgDestroyAction.ffmpegKill
          = (if sess.hasFfmpeg then 1 else 0) ∧
        (endSession st c).2.count PgDestroyAction.clearSilence
          = (if sess.hasSilence then 1 else 0) ∧
        (endSession st c).2.count PgDestroyAction.wavEnd
          = (if sess.hasWav then 1 else 0)) ∧
    (∀ (g : TwGateway) (sid : String),
        twStep (twStep g (.stop sid)).1 (.stop sid)
          = ((twStep g (.stop sid)).1, [])) ∧
    (∀ (g : TwGateway) (sid : String),
        g.calls sid = none → g.wavWriters sid = none →
        twStep g (.stop sid) = (g, [])) ∧
    (∀ (g : TwGateway) (sid : String) (c : ActiveCall) (wid : Nat),
        g.calls sid = some c → g.wavWriters sid = some wid →
        (twStep g (.stop sid)).1.calls sid = none ∧
        (twStep g (.stop sid)).1.wavWriters sid = none ∧
        (c.dgPresent = true → TwAction.dgClose sid ∈ (twStep g (.stop sid)).2) ∧
        TwAction.wavEnd wid ∈ (twStep g (.stop sid)).2) := by
  refine ⟨?_, endSession_unknown, ?_, ?_, twStop_unknown, ?_⟩
  · intro st c
    exact endSession_unknown _ c (endSession_clears st c)
  · intro st c sess hs
    refine ⟨endSession_clears st c, ?_⟩
    cases hf : sess.hasFfmpeg <;> cases hsil : sess.hasSilence <;>
      cases hw : sess.hasWav <;>
      simp [endSession, hs, hf, hsil, hw]
  · intro g sid
    have h := twStep_stop_clears g sid
    exact twStop_unknown _ sid h.1 h.2
  · intro g sid c wid hc hw
    refine ⟨(twStep_stop_clears g sid).1, (twStep_stop_clears g sid).2, ?_, ?_⟩
    · intro hp; simp [twStep, hc, hw, hp]
    · cases hp : c.dgPresent <;> simp [twStep, hc, hw, hp]

/-- Witness for C6: destroying an unregistered playground client is a
no-op, and a single Twilio stop on a live call closes Deepgram, ends the
writer and removes both entries. -/
theorem destroy_idempotent_and_complete_witness :
    endSession { sessions := fun _ => none } 0
      = ({ sessions := fun _ => none }, []) ∧
    ((twStep (twRun initialGateway
        [TwEvent.start "s", TwEvent.dgConnected "s"]).1 (.stop "s")).1.calls "s"
      = none ∧
    (twStep (twRun initialGateway
        [TwEvent.start "s", TwEvent.dgConnected "s"]).1 (.stop "s")).1.wavWriters "s"
      = none ∧
    ({ dgPresent := true
       dgOpen := true
       buf := []
       maxBuf := 400
       transcriptHistory := []
       genInflight := 0 : ActiveCall }.dgPresent = true →
      TwAction.dgClose "s" ∈ (twStep (twRun initialGateway
        [TwEvent.start "s", TwEvent.dgConnected "s"]).1 (.stop "s")).2) ∧
    TwAction.wavEnd 0 ∈ (twStep (twRun initialGateway
        [TwEvent.start "s", TwEvent.dgConnected "s"]).1 (.stop "s")).2) :=
  ⟨destroy_idempotent_and_complete.2.1 { sessions := fun _ => none } 0 rfl,
    destroy_idempotent_and_complete.2.2.2.2.2
      (twRun initialGateway [TwEvent.start "s", TwEvent.dgConnected "s"]).1 "s"
      { dgPresent := true
        dgOpen := true
        buf := []
        maxBuf := 400
        transcriptHistory := []
        genInflight := 0 }
      0 (by decide) (by decide)⟩

/-- C7 (amended): a `start` for a stream id unconditionally registers a
fresh call (Deepgram not yet connected, empty buffer) and a fresh WAV
writer, overwriting any existing entries for that id; it emits no release
action for the previous session's resources and leaves other ids
untouched. -/
theorem start_overwrites_registration :
    ∀ (g : TwGateway) (sid : String),
      (twStep g (.start sid)).1.calls sid = some initialActiveCall ∧
      (twStep g (.start sid)).1.wavWriters sid = some g.nextWriter ∧
      (twStep g (.start sid)).1.nextWriter = g.nextWriter + 1 ∧
      (twStep g (.start sid)).2 = [] ∧
      (∀ x, x ≠ sid →
        (twStep g (.start sid)).1.calls x = g.calls x ∧
        (twStep g (.start sid)).1.wavWriters x = g.wavWriters x) := by
  intro g sid
  refine ⟨by simp [twStep, updMap], by simp [twStep, updMap], rfl, rfl, ?_⟩
  intro x hx
  exact ⟨by simp [twStep, updMap, hx], by simp [twStep, updMap, hx]⟩

/-- Witness for C7's amended theorem on the empty gateway. -/
theorem start_overwrites_registration_witness :
    (twStep initialGateway (.start "s")).1.calls "s" = some initialActiveCall ∧
    (twStep initialGateway (.start "s")).1.calls "x" = initialGateway.calls "x" :=
  ⟨(start_overwrites_registration initialGateway "s").1,
    ((start_overwrites_registration initialGateway "s").2.2.2.2 "x" (by decide)).1⟩

/-- Counterexample to C7 as stated: a second `start` for the same stream
id is not ignored — it replaces the registered recording sink (writer 0
becomes writer 1) and call state, and no release action is emitted for
the displaced resources. -/
theorem duplicate_start_replaces_session :
    (twRun initialGateway [TwEvent.start "s"]).1.wavWriters "s" = some 0 ∧
    (twRun initialGateway [TwEvent.start "s", TwEvent.start "s"]).1.wavWriters "s"
      = some 1 ∧
    (twRun initialGateway [TwEvent.start "s", TwEvent.start "s"]).2 = [] := by
  decide

/-- Witness for C9: closing after zero writes is safe and records size 0
and file size 36. -/
theorem pwav_close_header_sizes_witness :
    ((([] : List (List Nat)).foldl PlaygroundWavWriter.writePCM16
        (PlaygroundWavWriter.create 48000)).endFile.file.take 44
      = pwEndHeader 48000 ((([] : List (List Nat)).map List.length).sum)) ∧
    readU32LE ((([] : List (List Nat)).foldl PlaygroundWavWriter.writePCM16
        (PlaygroundWavWriter.create 48000)).endFile.file) 40
      = (([] : List (List Nat)).map List.length).sum ∧
    readU32LE ((([] : List (List Nat)).foldl PlaygroundWavWriter.writePCM16
        (PlaygroundWavWriter.create 48000)).endFile.file) 4
      = (([] : List (List Nat)).map List.length).sum + 36 :=
  pwav_close_header_sizes [] 48000 (by decide)

end VoxionBot
